import Mathlib

/-
Verification of the matcher layer of capybara.py (src/capybara/node/matchers.py).

The matcher methods are translated as pure Lean functions.  External collaborators
(query resolution, the exception classes, the helpers matches_count / expects_none,
and the synchronize retry loop of node/base.py) are not part of the source under
examination; they are modelled from the specification and clearly marked as such.
Resolution outcomes are passed in as explicit function arguments, so every matcher
becomes a total function from its inputs (options, resolution outcomes, the
synchronized flag and the current time) to an `Except` value: `Except.error`
models a raised exception and `Except.ok` a normal return.
-/

set_option maxRecDepth 4096

namespace Capybara

/-- Modelled from the spec: the exception classes of capybara/exceptions.py are not under
src/.  Section 7 of the spec gives the taxonomy: ExpectationNotMet (the quantified check
failed), ConfigurationError (conflicting or invalid options, fatal), TransientStateError
(the evaluator's retriable signal); remaining evaluator-specific fatal errors are modelled
by driverError. -/
inductive CapybaraError where
  | expectationNotMet (msg : String)
  | configurationError (msg : String)
  | transientStateError (msg : String)
  | driverError (msg : String)
deriving DecidableEq

/-- Modelled from the spec: section 4.3 classifies the retriable errors as the evaluator's
transient state signal and ExpectationNotMet (used internally while composing multi-part
checks); every other error is fatal and is re-raised immediately. -/
def isRetriable : CapybaraError → Bool
  | .expectationNotMet _ => true
  | .transientStateError _ => true
  | _ => false

/-- Whether an outcome is a normal return rather than a raised error. -/
def isSuccess : Except CapybaraError Bool → Bool
  | .ok _ => true
  | .error _ => false

/-- The recognized keyword options of a matcher call: the quantity keys of the spec
(count, minimum, maximum, between), the wait budget, and the checked filter used by
the field matchers.  Unrecognized pass-through filter options are absorbed into the
abstract resolution arguments of the matchers. -/
structure Options where
  count : Option Nat := none
  minimum : Option Nat := none
  maximum : Option Nat := none
  between : Option (Nat × Nat) := none
  wait : Option Nat := none
  checked : Option Bool := none
deriving DecidableEq

/-- Modelled from the spec: capybara.helpers.matches_count is not under src/.  Section 4.1
gives the count-constraint check: Exact(n) holds iff observed == n, Minimum(n) iff
observed >= n, Maximum(n) iff observed <= n, Between(lo, hi) iff lo <= observed <= hi,
and the default when no quantity option is given is at-least-one (observed >= 1);
exactly one variant is active for well-formed options. -/
def matches_count (observed : Nat) (opts : Options) : Bool :=
  match opts.count with
  | some n => observed == n
  | none =>
    match opts.minimum with
    | some n => decide (n ≤ observed)
    | none =>
      match opts.maximum with
      | some n => decide (observed ≤ n)
      | none =>
        match opts.between with
        | some p => decide (p.1 ≤ observed) && decide (observed ≤ p.2)
        | none => decide (1 ≤ observed)

/-- Modelled from the spec: capybara.helpers.expects_none is not under src/.  Sections 4.4
and 9: the options expect none exactly when the caller explicitly supplied a quantity
option (an exact count, minimum, maximum or between range) and that option accepts zero
occurrences. -/
def expects_none (opts : Options) : Bool :=
  if opts.count.isSome || opts.minimum.isSome || opts.maximum.isSome || opts.between.isSome then
    matches_count 0 opts
  else
    false

/-- Modelled from the spec: the synchronize retry loop of node/base.py is not under src/.
Section 4.3: with the deadline now + wait, the body is attempted once; a normal return is
returned immediately; a retriable error is retried at the next instant while time remains
and re-raised once the deadline has passed; a non-retriable error is re-raised
immediately; a zero budget still attempts the body exactly once.  The fuel argument is
the number of remaining retries (deadline minus current time); the body receives the
synchronized flag, set while the loop runs, and the current time. -/
def syncLoop (body : Bool → Nat → Except CapybaraError α) : Nat → Nat → Except CapybaraError α
  | 0, t => body true t
  | fuel + 1, t =>
    match body true t with
    | .ok a => .ok a
    | .error e => if isRetriable e then syncLoop body fuel (t + 1) else .error e

/-- Modelled from the spec: the synchronize entry point of node/base.py is not under src/.
Section 4.3 requires that a composite check's sub-checks share the single outer deadline
rather than re-applying their own budget; this is modelled by the synchronized flag: a
synchronize call made while a synchronize is already running executes its body exactly
once, applying no budget of its own, while an outermost call runs the retry loop with the
given wait budget. -/
def synchronize (synchronized : Bool) (wait : Nat)
    (body : Bool → Nat → Except CapybaraError α) (now : Nat) : Except CapybaraError α :=
  if synchronized then body true now else syncLoop body wait now

/-- The retry body of assert_selector (matchers.py lines 230-237), as a function of the
observed occurrence count of the resolved result: raise ExpectationNotMet with the
failure message unless the result matches its count constraint and the count is positive
or the options expect none; otherwise return True.  The matches_count flag of the
resolved result is derived from the observed count and the query options (spec section
3). -/
def assert_selector_body (opts : Options) (count : Nat) (msg : String) :
    Except CapybaraError Bool :=
  if !(matches_count count opts && (decide (0 < count) || expects_none opts)) then
    .error (.expectationNotMet msg)
  else
    .ok true

/-- The retry body of assert_no_selector (matchers.py lines 372-379): raise
ExpectationNotMet with the negative failure message when the result matches its count
constraint and the count is positive or the options expect none; otherwise return
True. -/
def assert_no_selector_body (opts : Options) (count : Nat) (msg : String) :
    Except CapybaraError Bool :=
  if matches_count count opts && (decide (0 < count) || expects_none opts) then
    .error (.expectationNotMet msg)
  else
    .ok true

/-- The retry body of assert_text (matchers.py lines 840-847), as a function of the
occurrence count returned by the text query. -/
def assert_text_body (opts : Options) (count : Nat) (msg : String) :
    Except CapybaraError Bool :=
  if !(matches_count count opts && (decide (0 < count) || expects_none opts)) then
    .error (.expectationNotMet msg)
  else
    .ok true

/-- The retry body of assert_no_text (matchers.py lines 870-877). -/
def assert_no_text_body (opts : Options) (count : Nat) (msg : String) :
    Except CapybaraError Bool :=
  if matches_count count opts && (decide (0 < count) || expects_none opts) then
    .error (.expectationNotMet msg)
  else
    .ok true

/-- The retry body of assert_style (matchers.py lines 260-264): raise ExpectationNotMet
with the query's failure message when the style query does not resolve; otherwise return
True. -/
def assert_style_body (resolves : Bool) (msg : String) : Except CapybaraError Bool :=
  if !resolves then .error (.expectationNotMet msg) else .ok true

/-- assert_selector (matchers.py lines 227-239): build the query (its wait defaults to
the process-wide default, spec section 4.2) and synchronize its retry body.  The
resolution outcome at each instant is supplied as a function; a raised resolution error
propagates out of the body unmodified (spec section 4.2). -/
def assert_selector_full (defaultMaxWait : Nat) (opts : Options)
    (resolve : Nat → Except CapybaraError Nat) (msg : String)
    (synchronized : Bool) (now : Nat) : Except CapybaraError Bool :=
  synchronize synchronized (opts.wait.getD defaultMaxWait)
    (fun _ t => (resolve t).bind (fun c => assert_selector_body opts c msg)) now

/-- assert_no_selector (matchers.py lines 345-381). -/
def assert_no_selector_full (defaultMaxWait : Nat) (opts : Options)
    (resolve : Nat → Except CapybaraError Nat) (msg : String)
    (synchronized : Bool) (now : Nat) : Except CapybaraError Bool :=
  synchronize synchronized (opts.wait.getD defaultMaxWait)
    (fun _ t => (resolve t).bind (fun c => assert_no_selector_body opts c msg)) now

/-- assert_text (matchers.py lines 822-849). -/
def assert_text_full (defaultMaxWait : Nat) (opts : Options)
    (resolve : Nat → Except CapybaraError Nat) (msg : String)
    (synchronized : Bool) (now : Nat) : Except CapybaraError Bool :=
  synchronize synchronized (opts.wait.getD defaultMaxWait)
    (fun _ t => (resolve t).bind (fun c => assert_text_body opts c msg)) now

/-- assert_no_text (matchers.py lines 851-879). -/
def assert_no_text_full (defaultMaxWait : Nat) (opts : Options)
    (resolve : Nat → Except CapybaraError Nat) (msg : String)
    (synchronized : Bool) (now : Nat) : Except CapybaraError Bool :=
  synchronize synchronized (opts.wait.getD defaultMaxWait)
    (fun _ t => (resolve t).bind (fun c => assert_no_text_body opts c msg)) now

/-- assert_style (matchers.py lines 241-266): the style-query resolution outcome at each
instant is supplied as a function and may itself raise. -/
def assert_style_full (defaultMaxWait : Nat) (wait : Option Nat)
    (resolves : Nat → Except CapybaraError Bool) (msg : String)
    (synchronized : Bool) (now : Nat) : Except CapybaraError Bool :=
  synchronize synchronized (wait.getD defaultMaxWait)
    (fun _ t => (resolves t).bind (fun b => assert_style_body b msg)) now

/-- The first positional argument of assert_all_of_selectors / assert_none_of_selectors:
a value that is either hashable (carrying the string used for the registry lookup and as
the selector kind) or unhashable (for example a list locator). -/
inductive Arg where
  | hashable (v : String)
  | unhashable (v : String)
deriving DecidableEq

/-- Whether the first positional argument is hashable (isinstance(selector, Hashable)). -/
def argHashable : Arg → Bool
  | .hashable _ => true
  | .unhashable _ => false

/-- The underlying value of the first positional argument. -/
def argKey : Arg → String
  | .hashable v => v
  | .unhashable v => v

/-- The first-argument normalization of assert_all_of_selectors and
assert_none_of_selectors (matchers.py lines 294-296 and 332-334): if the first argument
is not hashable or is not a key of the selector registry, it is prepended to the locator
list and the process-wide default selector kind is used; otherwise it is the selector
kind and the locator list is unchanged. -/
def normalize_selector_args (registry : List String) (defaultSel : String)
    (selector : Arg) (locators : List Arg) : String × List Arg :=
  if !argHashable selector || !(registry.contains (argKey selector)) then
    (defaultSel, selector :: locators)
  else
    (argKey selector, locators)

/-- The group wait of assert_all_of_selectors / assert_none_of_selectors (matchers.py
lines 292 and 330): the wait keyword option when supplied, the process-wide default
maximum wait time otherwise. -/
def allOfGroupWait (kwargs : Options) (defaultMaxWait : Nat) : Nat :=
  match kwargs.wait with
  | some w => w
  | none => defaultMaxWait

/-- The keyword options forwarded to each per-locator sub-check of
assert_all_of_selectors / assert_none_of_selectors (matchers.py lines 301 and 339): the
source forwards the incoming keyword options unchanged (the wait key is read at line 292
/ 330 but not removed). -/
def allOfSubKwargs (kwargs : Options) : Options := kwargs

/-- The sequential per-locator loop of the group bodies (matchers.py lines 300-303 and
338-341): run the sub-check for each locator in order, propagating the first raised
error, and return True when every sub-check returned normally. -/
def run_locators (sub : α → Except CapybaraError Bool) : List α → Except CapybaraError Bool
  | [] => .ok true
  | l :: ls =>
    match sub l with
    | .error e => .error e
    | .ok _ => run_locators sub ls

/-- assert_all_of_selectors (matchers.py lines 268-305): compute the group wait,
normalize the first argument, and synchronize one body that runs assert_selector for
every locator with the forwarded keyword options.  The resolution outcome of each
locator under the chosen selector kind at each instant is supplied as a function, as is
each locator's failure message. -/
def assert_all_of_selectors_full (registry : List String) (defaultSel : String)
    (defaultMaxWait : Nat) (selector : Arg) (locators : List Arg) (kwargs : Options)
    (resolve : String → Arg → Nat → Except CapybaraError Nat)
    (msg : String → Arg → String) (synchronized : Bool) (now : Nat) :
    Except CapybaraError Bool :=
  let wait := allOfGroupWait kwargs defaultMaxWait
  let p := normalize_selector_args registry defaultSel selector locators
  synchronize synchronized wait
    (fun s t => run_locators
      (fun l => assert_selector_full defaultMaxWait (allOfSubKwargs kwargs)
        (resolve p.1 l) (msg p.1 l) s t) p.2)
    now

/-- assert_none_of_selectors (matchers.py lines 307-343): as assert_all_of_selectors but
running assert_no_selector for every locator. -/
def assert_none_of_selectors_full (registry : List String) (defaultSel : String)
    (defaultMaxWait : Nat) (selector : Arg) (locators : List Arg) (kwargs : Options)
    (resolve : String → Arg → Nat → Except CapybaraError Nat)
    (msg : String → Arg → String) (synchronized : Bool) (now : Nat) :
    Except CapybaraError Bool :=
  let wait := allOfGroupWait kwargs defaultMaxWait
  let p := normalize_selector_args registry defaultSel selector locators
  synchronize synchronized wait
    (fun s t => run_locators
      (fun l => assert_no_selector_full defaultMaxWait (allOfSubKwargs kwargs)
        (resolve p.1 l) (msg p.1 l) s t) p.2)
    now

/-- Modelled from the spec: element handles and their equality (used by the Python
membership test) are not under src/; section 4.4 defines the membership test of the
matches-selector operations as identity-based, the same underlying element handle, so
nodes are modelled as opaque identity handles. -/
abbrev Node := Nat

/-- The scope against which assert_matches_selector resolves (matchers.py line 413): the
first parent of the current node when one exists, the node's originating query scope
otherwise. -/
def matches_selector_scope (parent : Option Node) (queryScope : Node) : Node :=
  parent.getD queryScope

/-- The retry body of assert_matches_selector (matchers.py lines 412-418): raise
ExpectationNotMet unless the current node is a member of the resolved match set. -/
def assert_matches_selector_body (node : Node) (result : List Node) :
    Except CapybaraError Bool :=
  if node ∉ result then
    .error (.expectationNotMet "Item does not match the provided selector")
  else
    .ok true

/-- The retry body of assert_not_match_selector (matchers.py lines 441-447): raise
ExpectationNotMet when the current node is a member of the resolved match set. -/
def assert_not_match_selector_body (node : Node) (result : List Node) :
    Except CapybaraError Bool :=
  if node ∈ result then
    .error (.expectationNotMet "Item matched the provided selector")
  else
    .ok true

/-- assert_matches_selector (matchers.py lines 386-420): synchronize the membership
check, resolving the query against the parent scope of the current node (or its
originating query scope when it has no parent).  The match set produced for a scope at
each instant is supplied as a function. -/
def assert_matches_selector_full (defaultMaxWait : Nat) (opts : Options) (node : Node)
    (parent : Option Node) (queryScope : Node) (resolve : Node → Nat → List Node)
    (synchronized : Bool) (now : Nat) : Except CapybaraError Bool :=
  synchronize synchronized (opts.wait.getD defaultMaxWait)
    (fun _ t =>
      assert_matches_selector_body node (resolve (matches_selector_scope parent queryScope) t))
    now

/-- assert_not_match_selector (matchers.py lines 422-449). -/
def assert_not_match_selector_full (defaultMaxWait : Nat) (opts : Options) (node : Node)
    (parent : Option Node) (queryScope : Node) (resolve : Node → Nat → List Node)
    (synchronized : Bool) (now : Nat) : Except CapybaraError Bool :=
  synchronize synchronized (opts.wait.getD defaultMaxWait)
    (fun _ t =>
      assert_not_match_selector_body node (resolve (matches_selector_scope parent queryScope) t))
    now

/-- The shared try/except shape of every boolean matcher variant (matchers.py lines
46-50, 65-69, 84-88, 114-118, 144-148, 162-166, 181-185, 902-905, 923-926): call the
corresponding assert, return True when it returns, return False when it raises
ExpectationNotMet, and let any other raised error propagate unchanged. -/
def booleanVariant (assertOutcome : Except CapybaraError Bool) : Except CapybaraError Bool :=
  match assertOutcome with
  | .ok _ => .ok true
  | .error (.expectationNotMet _) => .ok false
  | .error e => .error e

/-- has_selector (matchers.py lines 13-50). -/
def has_selector (defaultMaxWait : Nat) (opts : Options)
    (resolve : Nat → Except CapybaraError Nat) (msg : String)
    (synchronized : Bool) (now : Nat) : Except CapybaraError Bool :=
  booleanVariant (assert_selector_full defaultMaxWait opts resolve msg synchronized now)

/-- has_no_selector (matchers.py lines 52-69). -/
def has_no_selector (defaultMaxWait : Nat) (opts : Options)
    (resolve : Nat → Except CapybaraError Nat) (msg : String)
    (synchronized : Bool) (now : Nat) : Except CapybaraError Bool :=
  booleanVariant (assert_no_selector_full defaultMaxWait opts resolve msg synchronized now)

/-- has_text (matchers.py lines 881-905). -/
def has_text (defaultMaxWait : Nat) (opts : Options)
    (resolve : Nat → Except CapybaraError Nat) (msg : String)
    (synchronized : Bool) (now : Nat) : Except CapybaraError Bool :=
  booleanVariant (assert_text_full defaultMaxWait opts resolve msg synchronized now)

/-- has_no_text (matchers.py lines 910-926). -/
def has_no_text (defaultMaxWait : Nat) (opts : Options)
    (resolve : Nat → Except CapybaraError Nat) (msg : String)
    (synchronized : Bool) (now : Nat) : Except CapybaraError Bool :=
  booleanVariant (assert_no_text_full defaultMaxWait opts resolve msg synchronized now)

/-- has_style (matchers.py lines 71-88). -/
def has_style (defaultMaxWait : Nat) (wait : Option Nat)
    (resolves : Nat → Except CapybaraError Bool) (msg : String)
    (synchronized : Bool) (now : Nat) : Except CapybaraError Bool :=
  booleanVariant (assert_style_full defaultMaxWait wait resolves msg synchronized now)

/-- has_all_of_selectors (matchers.py lines 90-118). -/
def has_all_of_selectors (registry : List String) (defaultSel : String)
    (defaultMaxWait : Nat) (selector : Arg) (locators : List Arg) (kwargs : Options)
    (resolve : String → Arg → Nat → Except CapybaraError Nat)
    (msg : String → Arg → String) (synchronized : Bool) (now : Nat) :
    Except CapybaraError Bool :=
  booleanVariant (assert_all_of_selectors_full registry defaultSel defaultMaxWait
    selector locators kwargs resolve msg synchronized now)

/-- has_none_of_selectors (matchers.py lines 120-148). -/
def has_none_of_selectors (registry : List String) (defaultSel : String)
    (defaultMaxWait : Nat) (selector : Arg) (locators : List Arg) (kwargs : Options)
    (resolve : String → Arg → Nat → Except CapybaraError Nat)
    (msg : String → Arg → String) (synchronized : Bool) (now : Nat) :
    Except CapybaraError Bool :=
  booleanVariant (assert_none_of_selectors_full registry defaultSel defaultMaxWait
    selector locators kwargs resolve msg synchronized now)

/-- matches_selector (matchers.py lines 150-166). -/
def matches_selector (defaultMaxWait : Nat) (opts : Options) (node : Node)
    (parent : Option Node) (queryScope : Node) (resolve : Node → Nat → List Node)
    (synchronized : Bool) (now : Nat) : Except CapybaraError Bool :=
  booleanVariant (assert_matches_selector_full defaultMaxWait opts node parent queryScope
    resolve synchronized now)

/-- not_match_selector (matchers.py lines 168-185). -/
def not_match_selector (defaultMaxWait : Nat) (opts : Options) (node : Node)
    (parent : Option Node) (queryScope : Node) (resolve : Node → Nat → List Node)
    (synchronized : Bool) (now : Nat) : Except CapybaraError Bool :=
  booleanVariant (assert_not_match_selector_full defaultMaxWait opts node parent queryScope
    resolve synchronized now)

/-- refute_selector (matchers.py line 383): class-level alias of assert_no_selector. -/
def refute_selector : Nat → Options → (Nat → Except CapybaraError Nat) → String → Bool →
    Nat → Except CapybaraError Bool :=
  assert_no_selector_full

/-- refute_matches_selector (matchers.py line 451): class-level alias of
assert_not_match_selector. -/
def refute_matches_selector : Nat → Options → Node → Option Node → Node →
    (Node → Nat → List Node) → Bool → Nat → Except CapybaraError Bool :=
  assert_not_match_selector_full

/-- has_content (matchers.py line 907): class-level alias of has_text. -/
def has_content : Nat → Options → (Nat → Except CapybaraError Nat) → String → Bool →
    Nat → Except CapybaraError Bool :=
  has_text

/-- has_no_content (matchers.py line 928): class-level alias of has_no_text. -/
def has_no_content : Nat → Options → (Nat → Except CapybaraError Nat) → String → Bool →
    Nat → Except CapybaraError Bool :=
  has_no_text

/-- has_checked_field (matchers.py lines 620-634): force the checked option to True,
overwriting any caller-supplied value, and delegate to the field selector check. -/
def has_checked_field (defaultMaxWait : Nat) (kwargs : Options)
    (resolve : Nat → Except CapybaraError Nat) (msg : String)
    (synchronized : Bool) (now : Nat) : Except CapybaraError Bool :=
  has_selector defaultMaxWait { kwargs with checked := some true } resolve msg synchronized now

/-- has_no_checked_field (matchers.py lines 636-650). -/
def has_no_checked_field (defaultMaxWait : Nat) (kwargs : Options)
    (resolve : Nat → Except CapybaraError Nat) (msg : String)
    (synchronized : Bool) (now : Nat) : Except CapybaraError Bool :=
  has_no_selector defaultMaxWait { kwargs with checked := some true } resolve msg synchronized now

/-- has_unchecked_field (matchers.py lines 790-804): force the checked option to False,
overwriting any caller-supplied value, and delegate to the field selector check. -/
def has_unchecked_field (defaultMaxWait : Nat) (kwargs : Options)
    (resolve : Nat → Except CapybaraError Nat) (msg : String)
    (synchronized : Bool) (now : Nat) : Except CapybaraError Bool :=
  has_selector defaultMaxWait { kwargs with checked := some false } resolve msg synchronized now

/-- has_no_unchecked_field (matchers.py lines 806-820). -/
def has_no_unchecked_field (defaultMaxWait : Nat) (kwargs : Options)
    (resolve : Nat → Except CapybaraError Nat) (msg : String)
    (synchronized : Bool) (now : Nat) : Except CapybaraError Bool :=
  has_no_selector defaultMaxWait { kwargs with checked := some false } resolve msg synchronized now

/-- A concrete keyword-option record carrying an explicit wait of 7, used to exhibit how
the group matchers forward the wait option to their per-locator sub-checks. -/
def kw7 : Options := { wait := some 7 }

/-- The success guard shared by the positive and negative assertion bodies, in
propositional form. -/
theorem guard_iff (opts : Options) (count : Nat) :
    (matches_count count opts && (decide (0 < count) || expects_none opts)) = true
      ↔ (matches_count count opts = true ∧ (0 < count ∨ expects_none opts = true)) := by
  simp

theorem assert_selector_body_ok_iff (opts : Options) (count : Nat) (msg : String) :
    assert_selector_body opts count msg = Except.ok true
      ↔ (matches_count count opts = true ∧ (0 < count ∨ expects_none opts = true)) := by
  rw [← guard_iff]
  unfold assert_selector_body
  cases h : (matches_count count opts && (decide (0 < count) || expects_none opts)) <;> simp [h]

theorem assert_selector_body_error_iff (opts : Options) (count : Nat) (msg : String) :
    assert_selector_body opts count msg = Except.error (CapybaraError.expectationNotMet msg)
      ↔ ¬(matches_count count opts = true ∧ (0 < count ∨ expects_none opts = true)) := by
  rw [← guard_iff]
  unfold assert_selector_body
  cases h : (matches_count count opts && (decide (0 < count) || expects_none opts)) <;> simp [h]

theorem assert_text_body_ok_iff (opts : Options) (count : Nat) (msg : String) :
    assert_text_body opts count msg = Except.ok true
      ↔ (matches_count count opts = true ∧ (0 < count ∨ expects_none opts = true)) := by
  rw [← guard_iff]
  unfold assert_text_body
  cases h : (matches_count count opts && (decide (0 < count) || expects_none opts)) <;> simp [h]

theorem assert_text_body_error_iff (opts : Options) (count : Nat) (msg : String) :
    assert_text_body opts count msg = Except.error (CapybaraError.expectationNotMet msg)
      ↔ ¬(matches_count count opts = true ∧ (0 < count ∨ expects_none opts = true)) := by
  rw [← guard_iff]
  unfold assert_text_body
  cases h : (matches_count count opts && (decide (0 < count) || expects_none opts)) <;> simp [h]

theorem assert_no_selector_body_ok_iff (opts : Options) (count : Nat) (msg : String) :
    assert_no_selector_body opts count msg = Except.ok true
      ↔ ¬(matches_count count opts = true ∧ (0 < count ∨ expects_none opts = true)) := by
  rw [← guard_iff]
  unfold assert_no_selector_body
  cases h : (matches_count count opts && (decide (0 < count) || expects_none opts)) <;> simp [h]

theorem assert_no_selector_body_error_iff (opts : Options) (count : Nat) (msg : String) :
    assert_no_selector_body opts count msg
        = Except.error (CapybaraError.expectationNotMet msg)
      ↔ (matches_count count opts = true ∧ (0 < count ∨ expects_none opts = true)) := by
  rw [← guard_iff]
  unfold assert_no_selector_body
  cases h : (matches_count count opts && (decide (0 < count) || expects_none opts)) <;> simp [h]

theorem assert_no_text_body_ok_iff (opts : Options) (count : Nat) (msg : String) :
    assert_no_text_body opts count msg = Except.ok true
      ↔ ¬(matches_count count opts = true ∧ (0 < count ∨ expects_none opts = true)) := by
  rw [← guard_iff]
  unfold assert_no_text_body
  cases h : (matches_count count opts && (decide (0 < count) || expects_none opts)) <;> simp [h]

theorem assert_no_text_body_error_iff (opts : Options) (count : Nat) (msg : String) :
    assert_no_text_body opts count msg = Except.error (CapybaraError.expectationNotMet msg)
      ↔ (matches_count count opts = true ∧ (0 < count ∨ expects_none opts = true)) := by
  rw [← guard_iff]
  unfold assert_no_text_body
  cases h : (matches_count count opts && (decide (0 < count) || expects_none opts)) <;> simp [h]

/-- C1: the body of assert_selector (and likewise assert_text) raises ExpectationNotMet
exactly when it is not the case that the result satisfies its count constraint and the
observed count is positive or the options expect none; otherwise it returns True; in
particular a constraint satisfied by zero occurrences does not make the positive
assertion succeed unless the options expect none. -/
theorem assert_positive_raises_iff :
    ∀ (opts : Options) (count : Nat) (msg : String),
      ((assert_selector_body opts count msg = Except.ok true)
        ↔ (matches_count count opts = true ∧ (0 < count ∨ expects_none opts = true)))
      ∧ ((assert_selector_body opts count msg
            = Except.error (CapybaraError.expectationNotMet msg))
        ↔ ¬(matches_count count opts = true ∧ (0 < count ∨ expects_none opts = true)))
      ∧ ((assert_text_body opts count msg = Except.ok true)
        ↔ (matches_count count opts = true ∧ (0 < count ∨ expects_none opts = true)))
      ∧ ((assert_text_body opts count msg
            = Except.error (CapybaraError.expectationNotMet msg))
        ↔ ¬(matches_count count opts = true ∧ (0 < count ∨ expects_none opts = true)))
      ∧ ((assert_selector_body opts 0 msg = Except.ok true)
        ↔ (matches_count 0 opts = true ∧ expects_none opts = true))
      ∧ ((assert_text_body opts 0 msg = Except.ok true)
        ↔ (matches_count 0 opts = true ∧ expects_none opts = true)) := by
  intro opts count msg
  refine ⟨assert_selector_body_ok_iff opts count msg,
          assert_selector_body_error_iff opts count msg,
          assert_text_body_ok_iff opts count msg,
          assert_text_body_error_iff opts count msg, ?_, ?_⟩
  · simpa using assert_selector_body_ok_iff opts 0 msg
  · simpa using assert_text_body_ok_iff opts 0 msg

/-- C4: the body of assert_no_selector raises ExpectationNotMet precisely when the body
of assert_selector would return True on the same resolved result, and returns True
precisely when it would not; the same duality holds between assert_no_text and
assert_text. -/
theorem assert_negative_duality :
    ∀ (opts : Options) (count : Nat) (m1 m2 : String),
      ((assert_no_selector_body opts count m1
            = Except.error (CapybaraError.expectationNotMet m1))
        ↔ (assert_selector_body opts count m2 = Except.ok true))
      ∧ ((assert_no_selector_body opts count m1 = Except.ok true)
        ↔ ¬(assert_selector_body opts count m2 = Except.ok true))
      ∧ ((assert_no_text_body opts count m1
            = Except.error (CapybaraError.expectationNotMet m1))
        ↔ (assert_text_body opts count m2 = Except.ok true))
      ∧ ((assert_no_text_body opts count m1 = Except.ok true)
        ↔ ¬(assert_text_body opts count m2 = Except.ok true)) := by
  intro opts count m1 m2
  refine ⟨?_, ?_, ?_, ?_⟩
  · exact (assert_no_selector_body_error_iff opts count m1).trans
      (assert_selector_body_ok_iff opts count m2).symm
  · exact (assert_no_selector_body_ok_iff opts count m1).trans
      (not_congr (assert_selector_body_ok_iff opts count m2)).symm
  · exact (assert_no_text_body_error_iff opts count m1).trans
      (assert_text_body_ok_iff opts count m2).symm
  · exact (assert_no_text_body_ok_iff opts count m1).trans
      (not_congr (assert_text_body_ok_iff opts count m2)).symm

/-- C3: every boolean variant calls its corresponding assert and returns True when it
returns; it returns False exactly when the assert raises ExpectationNotMet; every other
raised error (a configuration error, the transient state signal, a driver error)
propagates to the caller unchanged. -/
theorem boolean_variant_spec :
    (∀ b : Bool, booleanVariant (Except.ok b) = Except.ok true)
    ∧ (∀ m : String, booleanVariant (Except.error (CapybaraError.expectationNotMet m))
        = Except.ok false)
    ∧ (∀ m : String, booleanVariant (Except.error (CapybaraError.configurationError m))
        = Except.error (CapybaraError.configurationError m))
    ∧ (∀ m : String, booleanVariant (Except.error (CapybaraError.transientStateError m))
        = Except.error (CapybaraError.transientStateError m))
    ∧ (∀ m : String, booleanVariant (Except.error (CapybaraError.driverError m))
        = Except.error (CapybaraError.driverError m))
    ∧ (∀ d opts r m s n, has_selector d opts r m s n
        = booleanVariant (assert_selector_full d opts r m s n))
    ∧ (∀ d opts r m s n, has_no_selector d opts r m s n
        = booleanVariant (assert_no_selector_full d opts r m s n))
    ∧ (∀ d opts r m s n, has_text d opts r m s n
        = booleanVariant (assert_text_full d opts r m s n))
    ∧ (∀ d opts r m s n, has_no_text d opts r m s n
        = booleanVariant (assert_no_text_full d opts r m s n))
    ∧ (∀ d w r m s n, has_style d w r m s n
        = booleanVariant (assert_style_full d w r m s n))
    ∧ (∀ reg ds d sel locs kw r m s n, has_all_of_selectors reg ds d sel locs kw r m s n
        = booleanVariant (assert_all_of_selectors_full reg ds d sel locs kw r m s n))
    ∧ (∀ reg ds d sel locs kw r m s n, has_none_of_selectors reg ds d sel locs kw r m s n
        = booleanVariant (assert_none_of_selectors_full reg ds d sel locs kw r m s n))
    ∧ (∀ d opts node p q r s n, matches_selector d opts node p q r s n
        = booleanVariant (assert_matches_selector_full d opts node p q r s n))
    ∧ (∀ d opts node p q r s n, not_match_selector d opts node p q r s n
        = booleanVariant (assert_not_match_selector_full d opts node p q r s n)) := by
  refine ⟨fun b => rfl, fun m => rfl, fun m => rfl, fun m => rfl, fun m => rfl,
    fun d opts r m s n => rfl, fun d opts r m s n => rfl, fun d opts r m s n => rfl,
    fun d opts r m s n => rfl, fun d w r m s n => rfl,
    fun reg ds d sel locs kw r m s n => rfl, fun reg ds d sel locs kw r m s n => rfl,
    fun d opts node p q r s n => rfl, fun d opts node p q r s n => rfl⟩

/-- C8: the aliased names agree with their canonical operations on every input:
refute_selector with assert_no_selector, refute_matches_selector with
assert_not_match_selector, and has_content / has_no_content with has_text /
has_no_text. -/
theorem alias_equivalence :
    (∀ d opts r m s n, refute_selector d opts r m s n
        = assert_no_selector_full d opts r m s n)
    ∧ (∀ d opts node p q r s n, refute_matches_selector d opts node p q r s n
        = assert_not_match_selector_full d opts node p q r s n)
    ∧ (∀ d opts r m s n, has_content d opts r m s n = has_text d opts r m s n)
    ∧ (∀ d opts r m s n, has_no_content d opts r m s n = has_no_text d opts r m s n) := by
  refine ⟨fun d opts r m s n => rfl, fun d opts node p q r s n => rfl,
    fun d opts r m s n => rfl, fun d opts r m s n => rfl⟩

/-- C9: has_checked_field and has_no_checked_field force the checked option to True, and
has_unchecked_field and has_no_unchecked_field force it to False, before delegating to
the field selector check, overwriting any checked value supplied by the caller. -/
theorem checked_field_forces_option :
    ∀ (d : Nat) (kwargs : Options) (r : Nat → Except CapybaraError Nat) (m : String)
      (s : Bool) (n : Nat) (b : Option Bool),
      (has_checked_field d { kwargs with checked := b } r m s n
        = has_selector d { kwargs with checked := some true } r m s n)
      ∧ (has_no_checked_field d { kwargs with checked := b } r m s n
        = has_no_selector d { kwargs with checked := some true } r m s n)
      ∧ (has_unchecked_field d { kwargs with checked := b } r m s n
        = has_selector d { kwargs with checked := some false } r m s n)
      ∧ (has_no_unchecked_field d { kwargs with checked := b } r m s n
        = has_no_selector d { kwargs with checked := some false } r m s n) := by
  intro d kwargs r m s n b
  exact ⟨rfl, rfl, rfl, rfl⟩

/-- C2 counterexample: the keyword options that assert_all_of_selectors and
assert_none_of_selectors forward to each per-locator sub-check keep the caller-supplied
wait intact; with an explicit wait of 7 the sub-check receives the very same options,
whose wait equals the full group budget, so the wait passed down is not overridden. -/
theorem all_of_wait_not_overridden :
    allOfSubKwargs kw7 = kw7
      ∧ kw7.wait = some 7
      ∧ (allOfSubKwargs kw7).wait = some (allOfGroupWait kw7 5) := by
  exact ⟨rfl, rfl, rfl⟩

/-- C2 (amended): the group matchers forward the keyword options, wait included,
unchanged to every per-locator sub-check; the group nevertheless shares the single group
deadline — the group wait is the caller-supplied wait, defaulting to the process-wide
default, and a sub-check invoked while the group synchronize is running executes its
body exactly once, applying no budget of its own. -/
theorem all_of_shared_budget :
    (∀ kwargs : Options, allOfSubKwargs kwargs = kwargs)
    ∧ (∀ (kwargs : Options) (w d : Nat), allOfGroupWait { kwargs with wait := some w } d = w)
    ∧ (∀ (kwargs : Options) (d : Nat), allOfGroupWait { kwargs with wait := none } d = d)
    ∧ (∀ d opts r m now, assert_selector_full d opts r m true now
        = (r now).bind (fun c => assert_selector_body opts c m))
    ∧ (∀ d opts r m now, assert_no_selector_full d opts r m true now
        = (r now).bind (fun c => assert_no_selector_body opts c m))
    ∧ (∀ reg ds d sel locs kwargs r m s now,
        assert_all_of_selectors_full reg ds d sel locs kwargs r m s now
          = synchronize s (allOfGroupWait kwargs d)
              (fun s2 t => run_locators
                (fun l => assert_selector_full d (allOfSubKwargs kwargs)
                  (r (normalize_selector_args reg ds sel locs).1 l)
                  (m (normalize_selector_args reg ds sel locs).1 l) s2 t)
                (normalize_selector_args reg ds sel locs).2) now)
    ∧ (∀ reg ds d sel locs kwargs r m s now,
        assert_none_of_selectors_full reg ds d sel locs kwargs r m s now
          = synchronize s (allOfGroupWait kwargs d)
              (fun s2 t => run_locators
                (fun l => assert_no_selector_full d (allOfSubKwargs kwargs)
                  (r (normalize_selector_args reg ds sel locs).1 l)
                  (m (normalize_selector_args reg ds sel locs).1 l) s2 t)
                (normalize_selector_args reg ds sel locs).2) now) := by
  refine ⟨fun kwargs => rfl, fun kwargs w d => rfl, fun kwargs d => rfl,
    fun d opts r m now => rfl, fun d opts r m now => rfl,
    fun reg ds d sel locs kwargs r m s now => rfl,
    fun reg ds d sel locs kwargs r m s now => rfl⟩

/-- C5: assert_matches_selector resolves the query against the parent scope of the
current node (or, when it has no parent, the node's originating query scope) and
succeeds exactly when the identity of the current node is a member of the resulting
match set; on failure it raises ExpectationNotMet with message "Item does not match the
provided selector", and assert_not_match_selector does the mirror check raising "Item
matched the provided selector". -/
theorem matches_selector_membership :
    ∀ (d : Nat) (opts : Options) (node : Node) (parent : Option Node) (qs : Node)
      (resolve : Node → Nat → List Node) (now : Nat) (n : Node),
      (matches_selector_scope (some n) qs = n)
      ∧ (matches_selector_scope none qs = qs)
      ∧ (assert_matches_selector_full d opts node parent qs resolve true now
          = assert_matches_selector_body node (resolve (matches_selector_scope parent qs) now))
      ∧ (assert_not_match_selector_full d opts node parent qs resolve true now
          = assert_not_match_selector_body node (resolve (matches_selector_scope parent qs) now))
      ∧ ((assert_matches_selector_body node (resolve (matches_selector_scope parent qs) now)
            = Except.ok true)
          ↔ node ∈ resolve (matches_selector_scope parent qs) now)
      ∧ ((assert_matches_selector_body node (resolve (matches_selector_scope parent qs) now)
            = Except.error (CapybaraError.expectationNotMet
                "Item does not match the provided selector"))
          ↔ node ∉ resolve (matches_selector_scope parent qs) now)
      ∧ ((assert_not_match_selector_body node (resolve (matches_selector_scope parent qs) now)
            = Except.ok true)
          ↔ node ∉ resolve (matches_selector_scope parent qs) now)
      ∧ ((assert_not_match_selector_body node (resolve (matches_selector_scope parent qs) now)
            = Except.error (CapybaraError.expectationNotMet
                "Item matched the provided selector"))
          ↔ node ∈ resolve (matches_selector_scope parent qs) now) := by
  intro d opts node parent qs resolve now n
  refine ⟨rfl, rfl, rfl, rfl, ?_, ?_, ?_, ?_⟩ <;>
    by_cases h : node ∈ resolve (matches_selector_scope parent qs) now <;>
      simp [assert_matches_selector_body, assert_not_match_selector_body, h]

theorem run_locators_ok_iff {α : Type} (sub : α → Except CapybaraError Bool)
    (locs : List α) :
    run_locators sub locs = Except.ok true ↔ ∀ l ∈ locs, isSuccess (sub l) = true := by
  induction locs with
  | nil => simp [run_locators]
  | cons h t ih =>
    cases hs : sub h with
    | error e => simp [run_locators, hs, isSuccess]
    | ok b => simp [run_locators, hs, isSuccess, ih]

/-- The sequential loop either returns True or propagates the outcome of the first
failing sub-check. -/
theorem run_locators_shape {α : Type} (sub : α → Except CapybaraError Bool)
    (locs : List α) :
    run_locators sub locs = Except.ok true
      ∨ ∃ l ∈ locs, isSuccess (sub l) = false ∧ run_locators sub locs = sub l := by
  induction locs with
  | nil => left; rfl
  | cons h t ih =>
    cases hs : sub h with
    | error e =>
      right
      exact ⟨h, List.mem_cons_self h t, by simp [isSuccess, hs], by simp [run_locators, hs]⟩
    | ok b =>
      rcases ih with hok | ⟨l, hl, hfail, heq⟩
      · left
        simpa [run_locators, hs] using hok
      · right
        exact ⟨l, List.mem_cons_of_mem h hl, hfail, by simpa [run_locators, hs] using heq⟩

theorem assert_no_selector_body_isSuccess (opts : Options) (count : Nat) (msg : String) :
    isSuccess (assert_no_selector_body opts count msg)
      = !(matches_count count opts && (decide (0 < count) || expects_none opts)) := by
  unfold assert_no_selector_body
  cases h : (matches_count count opts && (decide (0 < count) || expects_none opts)) <;>
    simp [h, isSuccess]

theorem assert_no_selector_body_shape (opts : Options) (count : Nat) (msg : String) :
    assert_no_selector_body opts count msg = Except.ok true
      ∨ assert_no_selector_body opts count msg
          = Except.error (CapybaraError.expectationNotMet msg) := by
  unfold assert_no_selector_body
  cases h : (matches_count count opts && (decide (0 < count) || expects_none opts)) <;>
    simp [h]

theorem synchronize_const_ok {α : Type} (s : Bool) (w now : Nat) (a : α) :
    synchronize s w (fun _ _ => Except.ok a) now = Except.ok a := by
  cases s with
  | true => rfl
  | false =>
    show syncLoop (fun _ _ => Except.ok a) w now = Except.ok a
    cases w <;> simp [syncLoop]

/-- C6: in assert_all_of_selectors and assert_none_of_selectors, a first positional
argument that is not a recognized selector-kind key (in particular any unhashable one)
is prepended to the locator list and the process-wide default selector kind is used
instead, while a recognized key is used as the selector kind with the locator list
unchanged; both group matchers depend on the first argument and the locators only
through this normalization. -/
theorem selector_kind_normalization :
    ∀ (registry : List String) (dsel : String) (sel : Arg) (locs : List Arg) (v : String),
      (argHashable sel = true → registry.contains (argKey sel) = true →
        normalize_selector_args registry dsel sel locs = (argKey sel, locs))
      ∧ ((argHashable sel = false ∨ registry.contains (argKey sel) = false) →
        normalize_selector_args registry dsel sel locs = (dsel, sel :: locs))
      ∧ (normalize_selector_args registry dsel (Arg.unhashable v) locs
          = (dsel, Arg.unhashable v :: locs))
      ∧ (∀ (sel2 : Arg) (locs2 : List Arg) (d : Nat) (kwargs : Options)
          (r : String → Arg → Nat → Except CapybaraError Nat) (m : String → Arg → String)
          (s : Bool) (now : Nat),
          normalize_selector_args registry dsel sel locs
              = normalize_selector_args registry dsel sel2 locs2 →
          assert_all_of_selectors_full registry dsel d sel locs kwargs r m s now
              = assert_all_of_selectors_full registry dsel d sel2 locs2 kwargs r m s now
            ∧ assert_none_of_selectors_full registry dsel d sel locs kwargs r m s now
              = assert_none_of_selectors_full registry dsel d sel2 locs2 kwargs r m s now) := by
  intro registry dsel sel locs v
  refine ⟨?_, ?_, ?_, ?_⟩
  · intro h1 h2
    have h2m : argKey sel ∈ registry := by simpa using h2
    simp [normalize_selector_args, h1, h2m]
  · intro h
    rcases h with h | h
    · simp [normalize_selector_args, h]
    · have hm : argKey sel ∉ registry := by simpa using h
      simp [normalize_selector_args, hm]
  · simp [normalize_selector_args, argHashable]
  · intro sel2 locs2 d kwargs r m s now h
    constructor <;>
      simp only [assert_all_of_selectors_full, assert_none_of_selectors_full, h]

/-- Witness for C6: with registry containing css and xpath and default selector css, a
recognized first argument xpath is kept with the locators unchanged, while an unhashable
first argument is prepended to the locators under the default kind. -/
theorem selector_kind_normalization_witness :
    normalize_selector_args ["css", "xpath"] "css" (Arg.hashable "xpath") [Arg.hashable "p"]
        = ("xpath", [Arg.hashable "p"])
      ∧ normalize_selector_args ["css", "xpath"] "css" (Arg.unhashable "q") []
        = ("css", [Arg.unhashable "q"]) := by
  refine ⟨?_, ?_⟩
  · exact (selector_kind_normalization ["css", "xpath"] "css" (Arg.hashable "xpath")
      [Arg.hashable "p"] "v").1 (by decide) (by decide)
  · exact (selector_kind_normalization ["css", "xpath"] "css" (Arg.unhashable "q")
      [] "q").2.2.1

/-- C7: the per-locator loop of assert_none_of_selectors raises ExpectationNotMet
exactly when at least one locator resolves to a result that satisfies its count
constraint with a positive count or options that expect none, independent of the state
of the other locators, and it returns True exactly when every per-locator negative check
succeeds; with the synchronized flag set, assert_none_of_selectors is exactly this loop
over the normalized locators with the forwarded keyword options. -/
theorem none_of_raises_iff_any_present :
    ∀ (opts : Options) (counts : Nat → Nat) (msgs : Nat → String) (locs : List Nat),
      ((run_locators (fun l => assert_no_selector_body opts (counts l) (msgs l)) locs
            = Except.ok true)
        ↔ ∀ l ∈ locs, assert_no_selector_body opts (counts l) (msgs l) = Except.ok true)
      ∧ ((∃ m, run_locators (fun l => assert_no_selector_body opts (counts l) (msgs l)) locs
            = Except.error (CapybaraError.expectationNotMet m))
        ↔ ∃ l ∈ locs, matches_count (counts l) opts = true
            ∧ (0 < counts l ∨ expects_none opts = true))
      ∧ (∀ (registry : List String) (dsel : String) (d : Nat) (sel : Arg)
          (locsA : List Arg) (kwargs : Options) (countsA : Arg → Nat)
          (msgsA : Arg → String) (now : Nat),
          assert_none_of_selectors_full registry dsel d sel locsA kwargs
              (fun _ l _ => Except.ok (countsA l)) (fun _ l => msgsA l) true now
            = run_locators
                (fun l => assert_no_selector_body (allOfSubKwargs kwargs) (countsA l)
                  (msgsA l))
                (normalize_selector_args registry dsel sel locsA).2) := by
  intro opts counts msgs locs
  refine ⟨?_, ?_, ?_⟩
  · constructor
    · intro h l hl
      have hs := (run_locators_ok_iff _ locs).mp h l hl
      rcases assert_no_selector_body_shape opts (counts l) (msgs l) with h2 | h2
      · exact h2
      · rw [h2] at hs
        simp [isSuccess] at hs
    · intro h
      refine (run_locators_ok_iff _ locs).mpr ?_
      intro l hl
      rw [h l hl]
      rfl
  · constructor
    · rintro ⟨m, hm⟩
      rcases run_locators_shape (fun l => assert_no_selector_body opts (counts l) (msgs l))
          locs with hok | ⟨l, hl, hfail, _⟩
      · rw [hok] at hm
        exact absurd hm (by simp)
      · refine ⟨l, hl, ?_⟩
        rw [assert_no_selector_body_isSuccess] at hfail
        have : (matches_count (counts l) opts
            && (decide (0 < counts l) || expects_none opts)) = true := by
          cases hg : (matches_count (counts l) opts
              && (decide (0 < counts l) || expects_none opts)) with
          | false => rw [hg] at hfail; simp at hfail
          | true => rfl
        exact (guard_iff opts (counts l)).mp this
    · rintro ⟨l, hl, hg⟩
      have hguard := (guard_iff opts (counts l)).mpr hg
      have hfail : isSuccess (assert_no_selector_body opts (counts l) (msgs l)) = false := by
        rw [assert_no_selector_body_isSuccess, hguard]
        rfl
      have hne : run_locators (fun l => assert_no_selector_body opts (counts l) (msgs l))
          locs ≠ Except.ok true := by
        intro hok
        have := (run_locators_ok_iff _ locs).mp hok l hl
        rw [hfail] at this
        exact absurd this (by simp)
      rcases run_locators_shape (fun l => assert_no_selector_body opts (counts l) (msgs l))
          locs with hok | ⟨l2, _, hfail2, heq2⟩
      · exact absurd hok hne
      · rcases assert_no_selector_body_shape opts (counts l2) (msgs l2) with h2 | h2
        · rw [h2] at hfail2
          simp [isSuccess] at hfail2
        · exact ⟨msgs l2, by rw [heq2, h2]⟩
  · intro registry dsel d sel locsA kwargs countsA msgsA now
    rfl

/-- C10: a call to assert_all_of_selectors or assert_none_of_selectors with a recognized
selector kind and zero locators runs the per-locator loop zero times and returns True
vacuously, whatever the resolution outcomes would have been. -/
theorem group_zero_locators_vacuous :
    ∀ (registry : List String) (dsel : String) (d : Nat) (kwargs : Options)
      (r : String → Arg → Nat → Except CapybaraError Nat) (m : String → Arg → String)
      (s : Bool) (now : Nat) (v : String),
      registry.contains v = true →
      assert_all_of_selectors_full registry dsel d (Arg.hashable v) [] kwargs r m s now
          = Except.ok true
        ∧ assert_none_of_selectors_full registry dsel d (Arg.hashable v) [] kwargs r m s now
          = Except.ok true := by
  intro registry dsel d kwargs r m s now v h
  have hm : v ∈ registry := by simpa using h
  have hnorm : normalize_selector_args registry dsel (Arg.hashable v) []
      = (v, ([] : List Arg)) := by
    simp [normalize_selector_args, argHashable, argKey, hm]
  constructor
  · have heq : assert_all_of_selectors_full registry dsel d (Arg.hashable v) [] kwargs
        r m s now
        = synchronize s (allOfGroupWait kwargs d) (fun _ _ => Except.ok true) now := by
      simp only [assert_all_of_selectors_full, hnorm, run_locators]
    rw [heq, synchronize_const_ok]
  · have heq : assert_none_of_selectors_full registry dsel d (Arg.hashable v) [] kwargs
        r m s now
        = synchronize s (allOfGroupWait kwargs d) (fun _ _ => Except.ok true) now := by
      simp only [assert_none_of_selectors_full, hnorm, run_locators]
    rw [heq, synchronize_const_ok]

/-- Witness for C10: with the recognized kind css, zero locators, and a resolution that
would raise a driver error if it were ever consulted, both group matchers return True. -/
theorem group_zero_locators_vacuous_witness :
    assert_all_of_selectors_full ["css"] "css" 3 (Arg.hashable "css") [] {}
        (fun _ _ _ => Except.error (CapybaraError.driverError "boom"))
        (fun _ _ => "msg") false 0
      = Except.ok true
    ∧ assert_none_of_selectors_full ["css"] "css" 3 (Arg.hashable "css") [] {}
        (fun _ _ _ => Except.error (CapybaraError.driverError "boom"))
        (fun _ _ => "msg") false 0
      = Except.ok true :=
  group_zero_locators_vacuous ["css"] "css" 3 {}
    (fun _ _ _ => Except.error (CapybaraError.driverError "boom"))
    (fun _ _ => "msg") false 0 "css" (by decide)

end Capybara
